import Mathlib

/-!
Shallow embedding of `src/ros/src/tools/chart.py`: the `Chart` ROS node's
shared stores (track / pose / path / traffic lights), its subscriber
callbacks, and one iteration of its render loop, together with theorems
settling the specification's claims about them.

Coordinates are `matplotlib` floats in the source; the claims only move
them around (no arithmetic is ever performed on them), so they are
modelled as `Int`.  Each Python lock-protected critical section becomes
one atomic Lean state transformation; interleavings of producer and
consumer critical sections are modelled explicitly as event traces.
-/

/-- A waypoint as used by `chart.py` (it only ever reads
`waypoint.pose.pose.position.x` and `.y`, so the transport nesting is
flattened). -/
structure Waypoint where
  x : Int
  y : Int
deriving Repr, DecidableEq

/-- A `/base_waypoints` or `/final_waypoints` `Lane` message. -/
structure Lane where
  waypoints : List Waypoint
deriving Repr, DecidableEq

/-- A `/current_pose` `PoseStamped` message, flattened to the two fields
`msg.pose.position.x` and `msg.pose.position.y` that `pose_cb` reads. -/
structure PoseMsg where
  x : Int
  y : Int
deriving Repr, DecidableEq

/-- One element of a `TrafficLightArray` message: position and state.
The state is the discrete signal phase, an ordinal in `0..3` (it indexes
the 4-tuple `tl_marker`). -/
structure TrafficLight where
  x : Int
  y : Int
  state : Fin 4
deriving Repr, DecidableEq

/-- A `/vehicle/traffic_lights` `TrafficLightArray` message. -/
structure TrafficLightArray where
  lights : List TrafficLight
deriving Repr, DecidableEq

/-- The shared mutable fields of the `Chart` object set up in
`Chart.__init__`: each `(value, dirty-flag)` pair is protected by its own
lock in the source, so every operation below corresponds to one critical
section acting atomically on this record. -/
structure ChartState where
  waypoints : List Waypoint
  pose : Option (Int × Int)
  is_pose_updated : Bool
  path : List Waypoint
  is_path_updated : Bool
  traffic_lights : Option (List (Int × Int × Fin 4))
deriving Repr, DecidableEq

/-- The initial `Chart` state built by `__init__`. -/
def chartInit : ChartState :=
  { waypoints := []
    pose := none
    is_pose_updated := false
    path := []
    is_path_updated := false
    traffic_lights := none }

/-- Errors a callback or a render-loop iteration can raise in Python. -/
inductive ChartErr where
  /-- the `assert len(self.waypoints) == 0` in `waypoints_cb` fails -/
  | assertionError
  /-- `next()` on an exhausted (empty) `itertools.cycle` -/
  | stopIteration
  /-- a local such as `car_dot` is used before being assigned -/
  | unboundLocal
  /-- unpacking `None` as a pair `x, y = ...` -/
  | typeError
deriving Repr, DecidableEq

/-- Model of `Chart.waypoints_cb`: asserts the track is still empty, then stores
the delivered waypoints under the waypoints lock.  (The subscriber
registrations it performs are transport side effects with no bearing on
the store state.) -/
def waypoints_cb (s : ChartState) (msg : Lane) : Except ChartErr ChartState :=
  if s.waypoints.length = 0 then
    Except.ok { s with waypoints := msg.waypoints }
  else
    Except.error ChartErr.assertionError

/-- Model of `Chart.pose_cb`: one critical section storing the pose and raising the
dirty flag. -/
def pose_cb (s : ChartState) (msg : PoseMsg) : ChartState :=
  { s with pose := some (msg.x, msg.y), is_pose_updated := true }

/-- Model of `Chart.path_cb`: one critical section storing the path and raising the
dirty flag. -/
def path_cb (s : ChartState) (msg : Lane) : ChartState :=
  { s with path := msg.waypoints, is_path_updated := true }

/-- Model of `Chart.traffic_lights_cb`: one critical section replacing the whole
traffic-light snapshot with `(x, y, state)` triples. -/
def traffic_lights_cb (s : ChartState) (msg : TrafficLightArray) : ChartState :=
  { s with traffic_lights := some (msg.lights.map fun tl => (tl.x, tl.y, tl.state)) }

/-- Model of `Chart.get_waypoints`: reads the track under its lock. -/
def get_waypoints (s : ChartState) : List Waypoint :=
  s.waypoints

/-- Model of `Chart.pose_updated`: reads the pose dirty flag under the pose lock
(its own critical section, separate from `get_pose`). -/
def pose_updated (s : ChartState) : Bool :=
  s.is_pose_updated

/-- Model of `Chart.get_pose`: one critical section that copies the stored pose out
and clears the dirty flag. -/
def get_pose (s : ChartState) : Option (Int × Int) × ChartState :=
  (s.pose, { s with is_pose_updated := false })

/-- Model of `Chart.path_updated`: reads the path dirty flag under the path lock. -/
def path_updated (s : ChartState) : Bool :=
  s.is_path_updated

/-- Model of `Chart.get_path`: one critical section that copies the stored path out
and clears the dirty flag. -/
def get_path (s : ChartState) : List Waypoint × ChartState :=
  (s.path, { s with is_path_updated := false })

/-- Model of `Chart.get_traffic_lights`: reads the traffic-light snapshot under its
lock; affects no flag (there is none for this store). -/
def get_traffic_lights (s : ChartState) : Option (List (Int × Int × Fin 4)) :=
  s.traffic_lights

/-- The consumer take operation as the render loop performs it
(lines 111-112 of the source): check `pose_updated`, and only if it
reports a pending update call `get_pose`.  Returns `some v` when a take
happened (with `v` the extracted store content) and `none` otherwise. -/
def takePose (s : ChartState) : Option (Option (Int × Int)) × ChartState :=
  if pose_updated s then
    (some (get_pose s).1, (get_pose s).2)
  else
    (none, s)

/-- A tagged message delivery, as dispatched by the ROS subscriptions the
node registers (`/base_waypoints` in `__init__`, the other three inside
`waypoints_cb`). -/
inductive Delivery where
  | track (msg : Lane)
  | poseMsg (msg : PoseMsg)
  | pathMsg (msg : Lane)
  | signals (msg : TrafficLightArray)
deriving Repr, DecidableEq

/-- Whether a delivery is a `/base_waypoints` (track) delivery. -/
def Delivery.isTrack : Delivery → Bool
  | .track _ => true
  | _ => false

/-- Dispatch one delivery to its callback.  Only `waypoints_cb` can fail
(its assertion); the other callbacks are plain store writes. -/
def deliver (s : ChartState) (d : Delivery) : Except ChartErr ChartState :=
  match d with
  | .track m => waypoints_cb s m
  | .poseMsg m => Except.ok (pose_cb s m)
  | .pathMsg m => Except.ok (path_cb s m)
  | .signals m => Except.ok (traffic_lights_cb s m)

/-- Dispatch a sequence of deliveries in order, stopping at the first
failure. -/
def deliverAll (s : ChartState) (ds : List Delivery) : Except ChartErr ChartState :=
  ds.foldlM deliver s

/-- The marker-style tuple `tl_marker = ('ro', 'yo', 'go', 'bo')` of the
render loop, indexed by a traffic-light state; each style string is
modelled as its list of characters. -/
def tl_marker (i : Fin 4) : List Char :=
  match i.val with
  | 0 => ['r', 'o']
  | 1 => ['y', 'o']
  | 2 => ['g', 'o']
  | _ => ['b', 'o']

/-- State of an `itertools.cycle` iterator: the cycled sequence and how
many `next()` calls have been made. -/
structure PyCycle (α : Type) where
  items : List α
  pos : Nat
deriving Repr, DecidableEq

/-- One `next()` call on an `itertools.cycle`: yields element
`pos % length` and advances, or nothing (Python raises `StopIteration`)
when the cycled sequence is empty. -/
def PyCycle.next {α : Type} (c : PyCycle α) : Option (α × PyCycle α) :=
  match c.items.get? (c.pos % c.items.length) with
  | none => none
  | some a => some (a, { c with pos := c.pos + 1 })

/-- The `tl_dots` matplotlib artist: the data it was created with and the
marker face/edge colors later assigned through `set_markerfacecolor` /
`set_markeredgecolor` (which color every marker of the artist at once). -/
structure TLDots where
  xdata : List Int
  ydata : List Int
  style : List Char
  face : Option Char
  edge : Option Char
deriving Repr, DecidableEq

/-- The render loop's local variables (lines 104-108 of the source),
together with the `car_dot` / `path_line` / `tl_dots` artists they guard
and ghost counters for the external calls `fig.canvas.draw()` and
`plt.pause(0.001)`. -/
structure RenderState where
  first_iter : Bool
  first_path_iter : Bool
  update_chart : Bool
  first_tl_iter : Bool
  car_dot : Option (Int × Int)
  path_line : Option (List Int × List Int)
  tl_dots : Option TLDots
  draws : Nat
  pauses : Nat
deriving Repr, DecidableEq

/-- The render loop locals as initialised just before the `while` loop:
note `update_chart` starts out `true`. -/
def renderInit : RenderState :=
  { first_iter := true
    first_path_iter := true
    update_chart := true
    first_tl_iter := true
    car_dot := none
    path_line := none
    tl_dots := none
    draws := 0
    pauses := 0 }

/-- Lines 111-119: if the pose store is dirty, take the pose (unpacking
`x, y = self.get_pose()`, a `TypeError` if the store held `None`) and
create or move the `car_dot` artist, marking the chart changed. -/
def poseBranch (cs : ChartState) (rs : RenderState) :
    Except ChartErr (ChartState × RenderState) :=
  if pose_updated cs then
    match (get_pose cs).1 with
    | none => Except.error ChartErr.typeError
    | some xy =>
      if rs.first_iter then
        Except.ok ((get_pose cs).2,
          { rs with car_dot := some xy, first_iter := false, update_chart := true })
      else
        match rs.car_dot with
        | none => Except.error ChartErr.unboundLocal
        | some _ =>
          Except.ok ((get_pose cs).2,
            { rs with car_dot := some xy, update_chart := true })
  else
    Except.ok (cs, rs)

/-- Body of the `for wp in path` loop of lines 124-133: extend the
coordinate prefix lists and create or update the `path_line` artist with
the prefix accumulated so far, marking the chart changed, exactly as the
source does once per waypoint. -/
def pathStep (acc : List Int × List Int × RenderState) (wp : Waypoint) :
    Except ChartErr (List Int × List Int × RenderState) :=
  let xs := acc.1 ++ [wp.x]
  let ys := acc.2.1 ++ [wp.y]
  let rs := acc.2.2
  if rs.first_path_iter then
    Except.ok (xs, ys,
      { rs with path_line := some (xs, ys), first_path_iter := false,
                update_chart := true })
  else
    match rs.path_line with
    | none => Except.error ChartErr.unboundLocal
    | some _ =>
      Except.ok (xs, ys, { rs with path_line := some (xs, ys), update_chart := true })

/-- The `for wp in path` loop itself: fold `pathStep` over the waypoints,
propagating the first failure. -/
def pathLoop : List Waypoint → (List Int × List Int × RenderState) →
    Except ChartErr (List Int × List Int × RenderState)
  | [], acc => Except.ok acc
  | wp :: rest, acc =>
    match pathStep acc wp with
    | Except.error e => Except.error e
    | Except.ok acc2 => pathLoop rest acc2

/-- Lines 121-133: if the path store is dirty, take the path and run the
per-waypoint update loop. -/
def pathBranch (cs : ChartState) (rs : RenderState) :
    Except ChartErr (ChartState × RenderState) :=
  if path_updated cs then
    match pathLoop (get_path cs).1 ([], [], rs) with
    | Except.error e => Except.error e
    | Except.ok acc => Except.ok ((get_path cs).2, acc.2.2)
  else
    Except.ok (cs, rs)

/-- Lines 135-150: if the traffic-light snapshot is present (the guard is
`is not None` - there is no dirty flag), read it via
`get_traffic_lights`, rebuild the coordinate and marker-style lists, and
either create the `tl_dots` artist (first time) or restyle it with two
successive `next()` calls on an `itertools.cycle` of the style list:
the first call's string colors the marker faces, the second call's the
marker edges.  In both cases the chart is marked changed. -/
def tlBranch (cs : ChartState) (rs : RenderState) :
    Except ChartErr (ChartState × RenderState) :=
  match get_traffic_lights cs with
  | none => Except.ok (cs, rs)
  | some tls =>
    let tl_x := tls.map fun t => t.1
    let tl_y := tls.map fun t => t.2.1
    let tl_c := tls.map fun t => tl_marker t.2.2
    let marker : PyCycle (List Char) := ⟨tl_c, 0⟩
    if rs.first_tl_iter then
      match marker.next with
      | none => Except.error ChartErr.stopIteration
      | some (m, _) =>
        Except.ok (cs,
          { rs with
            tl_dots := some { xdata := tl_x, ydata := tl_y, style := m,
                              face := none, edge := none }
            first_tl_iter := false
            update_chart := true })
    else
      match marker.next with
      | none => Except.error ChartErr.stopIteration
      | some (m1, marker1) =>
        match marker1.next with
        | none => Except.error ChartErr.stopIteration
        | some (m2, _) =>
          match rs.tl_dots with
          | none => Except.error ChartErr.unboundLocal
          | some d =>
            Except.ok (cs,
              { rs with
                tl_dots := some { d with face := m1.head?, edge := m2.head? }
                update_chart := true })

/-- Lines 110-150: the three store-draining branches of one loop
iteration, in source order. -/
def tickCore (cs : ChartState) (rs : RenderState) :
    Except ChartErr (ChartState × RenderState) :=
  match poseBranch cs rs with
  | Except.error e => Except.error e
  | Except.ok p1 =>
    match pathBranch p1.1 p1.2 with
    | Except.error e => Except.error e
    | Except.ok p2 => tlBranch p2.1 p2.2

/-- Lines 151-155: redraw (`fig.canvas.draw()` then `plt.pause(0.001)`)
and reset `update_chart`, but only when `update_chart` is set. -/
def tickFinish (rs : RenderState) : RenderState :=
  if rs.update_chart then
    { rs with draws := rs.draws + 1, pauses := rs.pauses + 1, update_chart := false }
  else
    rs

/-- One full iteration of the `while not rospy.is_shutdown()` render loop
(lines 109-156). -/
def tick (cs : ChartState) (rs : RenderState) :
    Except ChartErr (ChartState × RenderState) :=
  match tickCore cs rs with
  | Except.error e => Except.error e
  | Except.ok p => Except.ok (p.1, tickFinish p.2)

/-- Iterate `n` consecutive render-loop iterations. -/
def ticks : Nat → ChartState → RenderState → Except ChartErr (ChartState × RenderState)
  | 0, cs, rs => Except.ok (cs, rs)
  | n + 1, cs, rs =>
    match tick cs rs with
    | Except.error e => Except.error e
    | Except.ok p => ticks n p.1 p.2

/-- An atomic critical section on the pose store, as interleaving
producer (`pose_cb`) and consumer (`pose_updated` / `get_pose`) contexts
schedule them: the source takes the pose lock separately for the flag
check and for the extraction, so a producer write may land between the
two. -/
inductive PEv where
  | write (m : PoseMsg)
  | check
  | take
deriving Repr, DecidableEq

/-- Execution record of a pose-store trace:
`cs` is the shared state, `pending` whether the consumer's last `check`
reported a pending update (so its program order obliges it to `take`
next), `ok` whether the trace respects that consumer discipline
(`pose_updated` each tick, `get_pose` exactly after a positive check),
`writes` the ghost log of written values, `curIdx` the ghost index of the
most recent write, and `obs` the ghost log of takes, recording for each
the index of the write it extracted, the value, and how many writes had
happened at extraction time. -/
structure PoseRun where
  cs : ChartState
  pending : Bool
  ok : Bool
  writes : List (Int × Int)
  curIdx : Nat
  obs : List (Nat × (Int × Int) × Nat)
deriving Repr, DecidableEq

/-- A pose-store trace starts from the `__init__` state with no writes
observed or pending. -/
def poseRunInit : PoseRun :=
  { cs := chartInit, pending := false, ok := true, writes := [], curIdx := 0, obs := [] }

/-- Execute one atomic critical section of a pose-store trace. -/
def poseStep (r : PoseRun) (e : PEv) : PoseRun :=
  match e with
  | .write m =>
    { r with
      cs := pose_cb r.cs m
      curIdx := r.writes.length
      writes := r.writes ++ [(m.x, m.y)] }
  | .check =>
    { r with pending := pose_updated r.cs, ok := r.ok && !r.pending }
  | .take =>
    { r with
      cs := (get_pose r.cs).2
      pending := false
      ok := r.ok && r.pending
      obs := r.obs ++ [(r.curIdx, ((get_pose r.cs).1).getD (0, 0), r.writes.length)] }

/-- Run a whole interleaved pose-store trace from the initial state. -/
def runPose (tr : List PEv) : PoseRun :=
  tr.foldl poseStep poseRunInit

/-- The values extracted by the takes of a pose-store run, in order. -/
def obsVals (r : PoseRun) : List (Int × Int) :=
  r.obs.map fun e => e.2.1

/-- Invariant of disciplined pose-store runs: a positive check means the
store is dirty; while the store is dirty the current value is the last
write, not yet observed, and everything observed so far comes from
strictly earlier writes; while it is clean the observations form a
sublist of all writes; every observation records a genuine write, which
was the latest write at extraction time; observed write indices are
strictly increasing. -/
def PoseInv (r : PoseRun) : Prop :=
  r.ok = true →
    (r.pending = true → r.cs.is_pose_updated = true)
    ∧ (r.cs.is_pose_updated = true →
        ∃ pre v, r.writes = pre ++ [v] ∧ r.cs.pose = some v ∧ r.curIdx = pre.length
          ∧ List.Sublist (obsVals r) pre ∧ ∀ e ∈ r.obs, e.1 < pre.length)
    ∧ (r.cs.is_pose_updated = false →
        List.Sublist (obsVals r) r.writes ∧ ∀ e ∈ r.obs, e.1 < r.writes.length)
    ∧ (∀ e ∈ r.obs, r.writes[e.1]? = some e.2.1 ∧ e.1 + 1 = e.2.2)
    ∧ List.Pairwise (fun a b => a.1 < b.1) r.obs

/-- Every atomic step of a disciplined pose-store run preserves the run
invariant. -/
theorem poseStep_inv (r : PoseRun) (e : PEv) (h : PoseInv r) : PoseInv (poseStep r e) := by
  cases e with
  | write m =>
    intro hok
    obtain ⟨h1, h2, h3, h4, h5⟩ := h hok
    have hball : ∀ e ∈ r.obs, e.1 < r.writes.length := by
      cases hb : r.cs.is_pose_updated with
      | false => exact (h3 hb).2
      | true =>
        obtain ⟨pre, v, hw, _, _, _, hbd⟩ := h2 hb
        intro e he
        have := hbd e he
        simp only [hw, List.length_append, List.length_cons, List.length_nil]
        omega
    have hsubw : List.Sublist (obsVals r) r.writes := by
      cases hb : r.cs.is_pose_updated with
      | false => exact (h3 hb).1
      | true =>
        obtain ⟨pre, v, hw, _, _, hs, _⟩ := h2 hb
        rw [hw]
        exact hs.trans (List.sublist_append_left pre [v])
    refine ⟨fun _ => rfl, ?_, ?_, ?_, h5⟩
    · intro _
      exact ⟨r.writes, (m.x, m.y), rfl, rfl, rfl, hsubw, hball⟩
    · intro hc
      simp [poseStep, pose_cb] at hc
    · intro e he
      obtain ⟨hg, hn⟩ := h4 e he
      refine ⟨?_, hn⟩
      show (r.writes ++ [(m.x, m.y)])[e.1]? = some e.2.1
      rw [List.getElem?_append_left (hball e he)]
      exact hg
  | check =>
    intro hok
    have hok' : (r.ok && !r.pending) = true := hok
    rw [Bool.and_eq_true] at hok'
    obtain ⟨h1, h2, h3, h4, h5⟩ := h hok'.1
    exact ⟨fun hp => hp, h2, h3, h4, h5⟩
  | take =>
    intro hok
    have hok' : (r.ok && r.pending) = true := hok
    rw [Bool.and_eq_true] at hok'
    obtain ⟨h1, h2, h3, h4, h5⟩ := h hok'.1
    have hdirty := h1 hok'.2
    obtain ⟨pre, v, hw, hp, hc, hs, hbd⟩ := h2 hdirty
    have hlen : r.writes.length = pre.length + 1 := by
      simp [hw]
    have hobs : (poseStep r PEv.take).obs
        = r.obs ++ [(r.curIdx, v, r.writes.length)] := by
      simp [poseStep, get_pose, hp]
    have hwr : (poseStep r PEv.take).writes = r.writes := rfl
    refine ⟨?_, ?_, ?_, ?_, ?_⟩
    · intro hcon
      exact absurd hcon (by simp [poseStep])
    · intro hcon
      exact absurd hcon (by simp [poseStep, get_pose])
    · intro _
      constructor
      · have hov : obsVals (poseStep r PEv.take) = obsVals r ++ [v] := by
          simp [obsVals, hobs]
        rw [hov, hwr, hw]
        exact hs.append (List.Sublist.refl [v])
      · intro e he
        rw [hwr, hobs] at *
        rcases List.mem_append.mp he with hold | hnew
        · have := hbd e hold
          omega
        · have : e = (r.curIdx, v, r.writes.length) := by
            simpa using hnew
          subst this
          simp only [hc]
          omega
    · intro e he
      rw [hobs] at he
      rcases List.mem_append.mp he with hold | hnew
      · exact h4 e hold
      · have : e = (r.curIdx, v, r.writes.length) := by
          simpa using hnew
        subst this
        constructor
        · show r.writes[r.curIdx]? = some v
          rw [hc, hw]
          exact List.getElem?_concat_length pre v
        · simp only [hc]
          omega
    · rw [hobs]
      refine List.pairwise_append.mpr ⟨h5, List.pairwise_singleton _ _, ?_⟩
      intro a ha b hb
      have : b = (r.curIdx, v, r.writes.length) := by
        simpa using hb
      subst this
      show a.1 < r.curIdx
      rw [hc]
      exact hbd a ha

/-- Folding disciplined pose-store steps preserves the run invariant. -/
theorem foldl_poseStep_inv (tr : List PEv) :
    ∀ r : PoseRun, PoseInv r → PoseInv (tr.foldl poseStep r) := by
  induction tr with
  | nil => intro r h; exact h
  | cons e tr ih => intro r h; exact ih (poseStep r e) (poseStep_inv r e h)

/-- The run invariant holds after any interleaved pose-store trace. -/
theorem runPose_inv (tr : List PEv) : PoseInv (runPose tr) := by
  have hinit : PoseInv poseRunInit := by
    intro _
    refine ⟨?_, ?_, ?_, ?_, ?_⟩ <;> simp [poseRunInit, chartInit, obsVals]
  exact foldl_poseStep_inv tr poseRunInit hinit

/-- C1: for every interleaving of pose-store writes (`pose_cb`) with
consumer take operations (`pose_updated` followed by `get_pose`), each
written value is returned by the consumer at most once (the observed
write indices are strictly increasing), the sequence of observed values
is a possibly sparse subsequence of the written values in write order,
and no earlier value is returned after a later write has occurred: each
take extracts the write of index one less than the number of writes at
extraction time (`e.1 + 1 = e.2.2`), i.e. always the latest write, so a
stale earlier value can never be returned once a later write landed. -/
theorem c1_pose_takes_subsequence (tr : List PEv) (h : (runPose tr).ok = true) :
    List.Sublist (obsVals (runPose tr)) (runPose tr).writes
    ∧ List.Pairwise (fun a b => a.1 < b.1) (runPose tr).obs
    ∧ ∀ e ∈ (runPose tr).obs,
        (runPose tr).writes[e.1]? = some e.2.1 ∧ e.1 + 1 = e.2.2 := by
  obtain ⟨h1, h2, h3, h4, h5⟩ := runPose_inv tr h
  refine ⟨?_, h5, fun e he => ⟨(h4 e he).1, (h4 e he).2⟩⟩
  cases hb : (runPose tr).cs.is_pose_updated with
  | false => exact (h3 hb).1
  | true =>
    obtain ⟨pre, v, hw, _, _, hs, _⟩ := h2 hb
    rw [hw]
    exact hs.trans (List.sublist_append_left pre [v])

/-- Concrete disciplined trace used to instantiate `c1_pose_takes_subsequence`. -/
def c1Trace : List PEv :=
  [PEv.write ⟨1, 2⟩, PEv.check, PEv.take, PEv.write ⟨3, 4⟩, PEv.check, PEv.take]

/-- Witness for C1: the two-write, two-take trace is disciplined and the
theorem's conclusions hold for it. -/
theorem c1_witness :
    (runPose c1Trace).ok = true
    ∧ (List.Sublist (obsVals (runPose c1Trace)) (runPose c1Trace).writes
       ∧ List.Pairwise (fun a b => a.1 < b.1) (runPose c1Trace).obs
       ∧ ∀ e ∈ (runPose c1Trace).obs,
           (runPose c1Trace).writes[e.1]? = some e.2.1 ∧ e.1 + 1 = e.2.2) :=
  ⟨rfl, c1_pose_takes_subsequence c1Trace rfl⟩

/-- The spec's GuardedCell consumer primitive `try_take_if_dirty`,
instantiated at the pose store and following the spec's words: under ONE
critical section, if dirty is false return nothing, otherwise copy the
value out, clear dirty, and return the copy.  It is the atomic fusion of
`pose_updated` and `get_pose` that claim C2 asserts the code performs;
the code instead runs them as two separate critical sections. -/
def try_take_if_dirty (s : ChartState) : Option (Option (Int × Int)) × ChartState :=
  if s.is_pose_updated then
    (some s.pose, { s with is_pose_updated := false })
  else
    (none, s)

/-- Events of a pose-store trace against the atomic primitive: producer
writes and single-step atomic consume operations. -/
inductive AEv where
  | write (m : PoseMsg)
  | consume
deriving Repr, DecidableEq

/-- Execution record of an atomic-primitive trace: shared state plus the
values the consumer extracted. -/
structure AtomicRun where
  cs : ChartState
  obs : List (Option (Int × Int))
deriving Repr, DecidableEq

/-- Execute one event against the atomic primitive. -/
def atomicStep (r : AtomicRun) (e : AEv) : AtomicRun :=
  match e with
  | .write m => { r with cs := pose_cb r.cs m }
  | .consume =>
    match try_take_if_dirty r.cs with
    | (none, cs') => { r with cs := cs' }
    | (some v, cs') => { cs := cs', obs := r.obs ++ [v] }

/-- Run a trace against the atomic primitive from the initial state. -/
def runPoseAtomic (tr : List AEv) : AtomicRun :=
  tr.foldl atomicStep { cs := chartInit, obs := [] }

/-- C2 counterexample: the consumer's flag check (`pose_updated`) and the
extraction (`get_pose`) are NOT one atomic operation in the code.  With a
producer write landing between the check and the extraction, the code's
two-critical-section sequence extracts the later value `(3, 4)` and ends
with the flag clear, while the spec's one-critical-section
`try_take_if_dirty`, executed at the point of the check, extracts
`(1, 2)` and leaves the later write pending - an observable divergence at
this concrete schedule. -/
theorem c2_check_take_not_atomic :
    (runPose [PEv.write ⟨1, 2⟩, PEv.check, PEv.write ⟨3, 4⟩, PEv.take]).ok = true
    ∧ obsVals (runPose [PEv.write ⟨1, 2⟩, PEv.check, PEv.write ⟨3, 4⟩, PEv.take])
        = [(3, 4)]
    ∧ (runPose [PEv.write ⟨1, 2⟩, PEv.check, PEv.write ⟨3, 4⟩,
        PEv.take]).cs.is_pose_updated = false
    ∧ (runPoseAtomic [AEv.write ⟨1, 2⟩, AEv.consume, AEv.write ⟨3, 4⟩]).obs
        = [some (1, 2)]
    ∧ (runPoseAtomic [AEv.write ⟨1, 2⟩, AEv.consume,
        AEv.write ⟨3, 4⟩]).cs.is_pose_updated = true
    ∧ ((3 : Int), (4 : Int)) ≠ ((1 : Int), (2 : Int)) :=
  ⟨rfl, rfl, rfl, rfl, rfl, by decide⟩

/-- C2 amended: the flag check and the extraction are two separate
critical sections, but the flag is cleared in the same critical section
as the extraction (`get_pose`), which suffices for the claimed
consequences: under concurrent producer writes no update is observed
twice (observed write indices are strictly increasing) and no update is
lost between the flag check and the value read (every extraction returns
the most recent write at extraction time). -/
theorem c2_take_clears_with_extraction (tr : List PEv) (h : (runPose tr).ok = true) :
    List.Pairwise (fun a b => a.1 < b.1) (runPose tr).obs
    ∧ ∀ e ∈ (runPose tr).obs, e.1 + 1 = e.2.2
        ∧ (runPose tr).writes[e.1]? = some e.2.1 := by
  obtain ⟨_, _, _, h4, h5⟩ := runPose_inv tr h
  exact ⟨h5, fun e he => ⟨(h4 e he).2, (h4 e he).1⟩⟩

/-- Concrete disciplined trace used to instantiate
`c2_take_clears_with_extraction`. -/
def c2Trace : List PEv :=
  [PEv.write ⟨5, 6⟩, PEv.check, PEv.write ⟨7, 8⟩, PEv.take]

/-- Witness for the amended C2 theorem on a trace with a write racing
between the check and the extraction. -/
theorem c2_witness :
    (runPose c2Trace).ok = true
    ∧ (List.Pairwise (fun a b => a.1 < b.1) (runPose c2Trace).obs
       ∧ ∀ e ∈ (runPose c2Trace).obs, e.1 + 1 = e.2.2
           ∧ (runPose c2Trace).writes[e.1]? = some e.2.1) :=
  ⟨rfl, c2_take_clears_with_extraction c2Trace rfl⟩

/-- C8: performing the consumer take operation twice in a row with no
intervening write yields the pending value the first time and nothing
the second time: after one write the dirty check succeeds and extraction
returns the written value, and immediately afterwards the dirty check
reports no pending update, so the second take yields nothing. -/
theorem c8_take_twice_second_empty (s : ChartState) (m : PoseMsg) :
    (takePose (pose_cb s m)).1 = some (some (m.x, m.y))
    ∧ pose_updated (takePose (pose_cb s m)).2 = false
    ∧ (takePose (takePose (pose_cb s m)).2).1 = none := by
  simp [takePose, pose_cb, pose_updated, get_pose]

/-- C10: calling the extraction operation when the dirty flag is already
false still returns the currently stored value - the stale last-written
value, or the initial `None` / empty list if nothing was ever written -
and leaves the flag false; extraction by itself never yields "nothing"
and never fails (it is a total function returning the stored value). -/
theorem c10_extraction_total_when_clean (s : ChartState)
    (_hp : pose_updated s = false) (_hq : path_updated s = false) :
    (get_pose s).1 = s.pose
    ∧ (get_pose s).2.is_pose_updated = false
    ∧ (get_pose s).2.pose = s.pose
    ∧ (get_path s).1 = s.path
    ∧ (get_path s).2.is_path_updated = false
    ∧ (get_path s).2.path = s.path := by
  simp [get_pose, get_path]

/-- Witness for C10 at the initial state, where nothing was ever written:
extraction returns the initial `none` pose and empty path. -/
theorem c10_witness :
    pose_updated chartInit = false
    ∧ path_updated chartInit = false
    ∧ ((get_pose chartInit).1 = chartInit.pose
       ∧ (get_pose chartInit).2.is_pose_updated = false
       ∧ (get_pose chartInit).2.pose = chartInit.pose
       ∧ (get_path chartInit).1 = chartInit.path
       ∧ (get_path chartInit).2.is_path_updated = false
       ∧ (get_path chartInit).2.path = chartInit.path) :=
  ⟨rfl, rfl, c10_extraction_total_when_clean chartInit rfl rfl⟩

/-- Any sequence of pose, path and signal deliveries (no track among
them) dispatches without failure: those callbacks contain no assertion. -/
theorem deliverAll_no_track_ok (ds : List Delivery)
    (h : ∀ d ∈ ds, d.isTrack = false) :
    ∀ s : ChartState, ∃ s2, deliverAll s ds = Except.ok s2 := by
  induction ds with
  | nil => intro s; exact ⟨s, rfl⟩
  | cons d ds ih =>
    intro s
    have hd : d.isTrack = false := h d (List.mem_cons_self d ds)
    have hrest : ∀ d' ∈ ds, d'.isTrack = false :=
      fun d' hd' => h d' (List.mem_cons_of_mem d hd')
    cases d with
    | track m => simp [Delivery.isTrack] at hd
    | poseMsg m =>
      obtain ⟨s2, hs2⟩ := ih hrest (pose_cb s m)
      exact ⟨s2, by simpa [deliverAll, List.foldlM_cons, deliver] using hs2⟩
    | pathMsg m =>
      obtain ⟨s2, hs2⟩ := ih hrest (path_cb s m)
      exact ⟨s2, by simpa [deliverAll, List.foldlM_cons, deliver] using hs2⟩
    | signals m =>
      obtain ⟨s2, hs2⟩ := ih hrest (traffic_lights_cb s m)
      exact ⟨s2, by simpa [deliverAll, List.foldlM_cons, deliver] using hs2⟩

/-- C3 counterexample: delivering the track message a second time does
NOT always trigger the fatal assertion - when the first track message
carries zero waypoints, the store stays empty and the second delivery
passes `assert len(self.waypoints) == 0` again, succeeding. -/
theorem c3_second_track_can_pass :
    deliverAll chartInit [Delivery.track ⟨[]⟩, Delivery.track ⟨[]⟩]
      = Except.ok chartInit := rfl

/-- C3 amended: delivering a track message with at least one waypoint and
then any second track message triggers the assertion-failure fatal path,
while delivering the track once followed by any sequence of pose, path
and signal deliveries succeeds without any assertion failure. -/
theorem c3_track_once_then_others (s : ChartState) (m1 m2 : Lane)
    (ds : List Delivery) (hs : s.waypoints = []) (hnz : m1.waypoints ≠ [])
    (hds : ∀ d ∈ ds, d.isTrack = false) :
    waypoints_cb s m1 = Except.ok { s with waypoints := m1.waypoints }
    ∧ waypoints_cb { s with waypoints := m1.waypoints } m2
        = Except.error ChartErr.assertionError
    ∧ ∃ s2, deliverAll { s with waypoints := m1.waypoints } ds = Except.ok s2 := by
  refine ⟨?_, ?_, deliverAll_no_track_ok ds hds _⟩
  · simp [waypoints_cb, hs]
  · have hlen : ¬ m1.waypoints.length = 0 := by
      intro hzero
      exact hnz (List.length_eq_zero.mp hzero)
    simp [waypoints_cb, hlen]

/-- Witness for the amended C3 theorem: a one-waypoint track, a second
track message, then a pose and a signal delivery. -/
theorem c3_witness :
    chartInit.waypoints = []
    ∧ (Lane.mk [Waypoint.mk 0 0]).waypoints ≠ []
    ∧ (∀ d ∈ [Delivery.poseMsg ⟨1, 2⟩, Delivery.signals ⟨[]⟩], d.isTrack = false)
    ∧ (waypoints_cb chartInit (Lane.mk [Waypoint.mk 0 0])
        = Except.ok { chartInit with waypoints := (Lane.mk [Waypoint.mk 0 0]).waypoints }
       ∧ waypoints_cb
           { chartInit with waypoints := (Lane.mk [Waypoint.mk 0 0]).waypoints }
           (Lane.mk [])
           = Except.error ChartErr.assertionError
       ∧ ∃ s2, deliverAll
           { chartInit with waypoints := (Lane.mk [Waypoint.mk 0 0]).waypoints }
           [Delivery.poseMsg ⟨1, 2⟩, Delivery.signals ⟨[]⟩] = Except.ok s2) :=
  ⟨rfl, by decide, by decide,
    c3_track_once_then_others chartInit (Lane.mk [Waypoint.mk 0 0]) (Lane.mk [])
      [Delivery.poseMsg ⟨1, 2⟩, Delivery.signals ⟨[]⟩] rfl (by decide) (by decide)⟩

/-- A chart state that has received a one-waypoint track and nothing
else, used to instantiate the render-loop theorems. -/
def track0 : ChartState :=
  { chartInit with waypoints := [⟨0, 0⟩] }

/-- Decompose a successful loop iteration core into its three successful
branches. -/
theorem tickCore_ok_cases (cs : ChartState) (rs : RenderState)
    (p : ChartState × RenderState) (h : tickCore cs rs = Except.ok p) :
    ∃ p1 p2, poseBranch cs rs = Except.ok p1
      ∧ pathBranch p1.1 p1.2 = Except.ok p2
      ∧ tlBranch p2.1 p2.2 = Except.ok p := by
  unfold tickCore at h
  split at h
  · exact Except.noConfusion h
  · rename_i p1 h1
    split at h
    · exact Except.noConfusion h
    · rename_i p2 h2
      exact ⟨p1, p2, h1, h2, h⟩

/-- The pose branch never touches the redraw or pause counters. -/
theorem poseBranch_counters (cs : ChartState) (rs : RenderState)
    (p : ChartState × RenderState) (h : poseBranch cs rs = Except.ok p) :
    p.2.draws = rs.draws ∧ p.2.pauses = rs.pauses := by
  unfold poseBranch at h
  repeat' split at h
  all_goals first
    | exact Except.noConfusion h
    | (injection h with h2; subst h2; exact ⟨rfl, rfl⟩)

/-- One step of the path loop never touches the redraw or pause
counters. -/
theorem pathStep_counters (acc : List Int × List Int × RenderState) (wp : Waypoint)
    (res : List Int × List Int × RenderState) (h : pathStep acc wp = Except.ok res) :
    res.2.2.draws = acc.2.2.draws ∧ res.2.2.pauses = acc.2.2.pauses := by
  unfold pathStep at h
  dsimp only at h
  repeat' split at h
  all_goals first
    | exact Except.noConfusion h
    | (injection h with h2; subst h2; exact ⟨rfl, rfl⟩)

/-- The whole path loop never touches the redraw or pause counters. -/
theorem pathLoop_counters (l : List Waypoint) :
    ∀ acc res, pathLoop l acc = Except.ok res →
      res.2.2.draws = acc.2.2.draws ∧ res.2.2.pauses = acc.2.2.pauses := by
  induction l with
  | nil =>
    intro acc res h
    injection h with h2
    subst h2
    exact ⟨rfl, rfl⟩
  | cons wp rest ih =>
    intro acc res h
    unfold pathLoop at h
    split at h
    · exact Except.noConfusion h
    · rename_i acc2 hstep
      obtain ⟨a1, b1⟩ := pathStep_counters acc wp acc2 hstep
      obtain ⟨a2, b2⟩ := ih acc2 res h
      omega

/-- The path branch never touches the redraw or pause counters. -/
theorem pathBranch_counters (cs : ChartState) (rs : RenderState)
    (p : ChartState × RenderState) (h : pathBranch cs rs = Except.ok p) :
    p.2.draws = rs.draws ∧ p.2.pauses = rs.pauses := by
  unfold pathBranch at h
  split at h
  · split at h
    · exact Except.noConfusion h
    · rename_i acc hloop
      injection h with h2
      subst h2
      exact pathLoop_counters _ _ _ hloop
  · injection h with h2
    subst h2
    exact ⟨rfl, rfl⟩

/-- The traffic-light branch never touches the redraw or pause
counters. -/
theorem tlBranch_counters (cs : ChartState) (rs : RenderState)
    (p : ChartState × RenderState) (h : tlBranch cs rs = Except.ok p) :
    p.2.draws = rs.draws ∧ p.2.pauses = rs.pauses := by
  unfold tlBranch at h
  dsimp only at h
  repeat' split at h
  all_goals first
    | exact Except.noConfusion h
    | (injection h with h2; subst h2; exact ⟨rfl, rfl⟩)

/-- The three store-draining branches together never touch the redraw or
pause counters: only the final redraw step does. -/
theorem tickCore_counters (cs : ChartState) (rs : RenderState)
    (p : ChartState × RenderState) (h : tickCore cs rs = Except.ok p) :
    p.2.draws = rs.draws ∧ p.2.pauses = rs.pauses := by
  obtain ⟨p1, p2, h1, h2, h3⟩ := tickCore_ok_cases cs rs p h
  obtain ⟨a1, b1⟩ := poseBranch_counters cs rs p1 h1
  obtain ⟨a2, b2⟩ := pathBranch_counters p1.1 p1.2 p2 h2
  obtain ⟨a3, b3⟩ := tlBranch_counters p2.1 p2.2 p h3
  omega

/-- With no pending pose update the pose branch is the identity. -/
theorem poseBranch_skip (s : ChartState) (rs : RenderState)
    (hp : s.is_pose_updated = false) : poseBranch s rs = Except.ok (s, rs) := by
  simp [poseBranch, pose_updated, hp]

/-- With no pending path update the path branch is the identity. -/
theorem pathBranch_skip (s : ChartState) (rs : RenderState)
    (hq : s.is_path_updated = false) : pathBranch s rs = Except.ok (s, rs) := by
  simp [pathBranch, path_updated, hq]

/-- With no traffic-light snapshot (still `None`) the traffic-light
branch is the identity: no signal work at all. -/
theorem tlBranch_skip (s : ChartState) (rs : RenderState)
    (ht : s.traffic_lights = none) : tlBranch s rs = Except.ok (s, rs) := by
  simp [tlBranch, get_traffic_lights, ht]

/-- With no pending pose or path update and no traffic-light snapshot,
all three branches skip and the core of a tick is the identity. -/
theorem tickCore_quiescent (s : ChartState) (rs : RenderState)
    (hp : s.is_pose_updated = false) (hq : s.is_path_updated = false)
    (ht : s.traffic_lights = none) :
    tickCore s rs = Except.ok (s, rs) := by
  simp [tickCore, poseBranch_skip s rs hp, pathBranch_skip s rs hq, tlBranch_skip s rs ht]

/-- A quiescent tick maps the render state through `tickFinish` only. -/
theorem tick_quiescent (s : ChartState) (rs : RenderState)
    (hp : s.is_pose_updated = false) (hq : s.is_path_updated = false)
    (ht : s.traffic_lights = none) :
    tick s rs = Except.ok (s, tickFinish rs) := by
  simp [tick, tickCore_quiescent s rs hp hq ht]

/-- The render state reached after the first quiescent tick: the forced
initial redraw has happened and `update_chart` is cleared. -/
def quiescentRS : RenderState :=
  { renderInit with update_chart := false, draws := 1, pauses := 1 }

/-- C4 counterexample: with the track set and no pose, path or signal
update ever delivered, the very first render tick already performs a
redraw (`update_chart` is initialised `true` before the loop), so the
number of redraw calls is 1, not the 0 the claim demands. -/
theorem c4_first_tick_redraws :
    (tick track0 renderInit).map (fun p => p.2.draws) = Except.ok 1 := rfl

/-- C4 amended: if no pose, path or signal update ever arrives after the
track is set, the first tick performs exactly one redraw (forced by the
`update_chart` flag starting `true`) and every (later) tick ends with the
changed flag false and performs no further redraw: after any positive
number of ticks the cumulative redraw count is exactly 1. -/
theorem c4_one_initial_redraw (s : ChartState) (n : Nat)
    (hp : s.is_pose_updated = false) (hq : s.is_path_updated = false)
    (ht : s.traffic_lights = none) :
    ticks (n + 1) s renderInit = Except.ok (s, quiescentRS) := by
  have h1 : tick s renderInit = Except.ok (s, quiescentRS) := by
    rw [tick_quiescent s renderInit hp hq ht]
    rfl
  have hsteady : ∀ m, ticks m s quiescentRS = Except.ok (s, quiescentRS) := by
    intro m
    induction m with
    | zero => rfl
    | succ k ih =>
      have h2 : tick s quiescentRS = Except.ok (s, quiescentRS) := by
        rw [tick_quiescent s quiescentRS hp hq ht]
        rfl
      simp [ticks, h2, ih]
  simp [ticks, h1, hsteady n]

/-- Witness for the amended C4 theorem: two ticks on a one-waypoint
track with nothing else delivered yield exactly one redraw. -/
theorem c4_witness :
    track0.is_pose_updated = false
    ∧ track0.is_path_updated = false
    ∧ track0.traffic_lights = none
    ∧ ticks 2 track0 renderInit = Except.ok (track0, quiescentRS) :=
  ⟨rfl, rfl, rfl, c4_one_initial_redraw track0 1 rfl rfl rfl⟩

/-- C5 counterexample: on a tick where nothing changed, the code calls
`plt.pause` (the process-pending-events yield) zero times, not the
"exactly once per tick regardless" the claim demands - the pause sits
inside the `if update_chart` block. -/
theorem c5_no_pause_when_unchanged :
    (tick track0 { renderInit with update_chart := false }).map
      (fun p => (p.2.draws, p.2.pauses)) = Except.ok (0, 0) := rfl

/-- C5 amended: on every successfully completing render tick, the redraw
(`fig.canvas.draw`) is invoked if and only if the changed flag is true
at the end of the three branches, and the process-pending-events yield
(`plt.pause`) is invoked exactly when the redraw is - both sit inside
the `if update_chart` block, so neither runs on an unchanged tick. -/
theorem c5_redraw_iff_changed (cs : ChartState) (rs : RenderState)
    (p : ChartState × RenderState) (h : tickCore cs rs = Except.ok p) :
    tick cs rs = Except.ok (p.1, tickFinish p.2)
    ∧ (tickFinish p.2).draws = rs.draws + (if p.2.update_chart = true then 1 else 0)
    ∧ (tickFinish p.2).pauses = rs.pauses + (if p.2.update_chart = true then 1 else 0) := by
  obtain ⟨hd, hw⟩ := tickCore_counters cs rs p h
  refine ⟨by simp [tick, h], ?_, ?_⟩
  · cases hb : p.2.update_chart with
    | true => simp [tickFinish, hb]; omega
    | false => simp [tickFinish, hb]; omega
  · cases hb : p.2.update_chart with
    | true => simp [tickFinish, hb]; omega
    | false => simp [tickFinish, hb]; omega

/-- Witness for the amended C5 theorem at the first quiescent tick,
where the changed flag starts true: one redraw, one pause. -/
theorem c5_witness :
    tickCore track0 renderInit = Except.ok (track0, renderInit)
    ∧ (tick track0 renderInit = Except.ok (track0, tickFinish renderInit)
       ∧ (tickFinish renderInit).draws
           = renderInit.draws + (if renderInit.update_chart = true then 1 else 0)
       ∧ (tickFinish renderInit).pauses
           = renderInit.pauses + (if renderInit.update_chart = true then 1 else 0)) :=
  ⟨rfl, c5_redraw_iff_changed track0 renderInit (track0, renderInit) rfl⟩

/-- Steady-state evaluation of the traffic-light branch on a non-empty
snapshot: the artist keeps its creation-time data and style, its face
color is restyled from the first snapshot entry's state and its edge
color from the state of entry `1 % n` of the snapshot (the two
successive `next()` calls of the cycle), and the chart is marked
changed. -/
theorem tlBranch_steady (cs : ChartState) (rs : RenderState)
    (t : Int × Int × Fin 4) (rest : List (Int × Int × Fin 4)) (d : TLDots)
    (htl : cs.traffic_lights = some (t :: rest))
    (hf : rs.first_tl_iter = false) (hd : rs.tl_dots = some d) :
    tlBranch cs rs = Except.ok (cs, { rs with
      update_chart := true
      tl_dots := some { d with
        face := (tl_marker t.2.2).head?
        edge := (tl_marker
          (((t :: rest).getD (1 % (rest.length + 1)) t).2.2)).head? } }) := by
  have hlt : 1 % (rest.length + 1) < (t :: rest).length := by
    simp only [List.length_cons]
    exact Nat.mod_lt 1 (Nat.succ_pos rest.length)
  have hg2 : (t :: rest).get? (1 % (rest.length + 1))
      = some ((t :: rest).getD (1 % (rest.length + 1)) t) := by
    rw [List.get?_eq_get hlt, List.getD_eq_get _ t hlt]
  unfold tlBranch
  rw [show get_traffic_lights cs = some (t :: rest) from htl]
  dsimp only
  simp only [hf, hd, PyCycle.next, List.length_map, List.length_cons, Nat.zero_mod,
    List.get?_map, List.get?_cons_zero, Option.map_some', hg2, Bool.false_eq_true,
    if_false]

/-- C6: once a non-empty signal snapshot is stored, every steady-state
render tick with no pose or path update pending re-reads the stored
snapshot (which survives the tick unchanged, there being no dirty flag to
clear), re-renders the signal markers with colors computed from the
stored states (face from the first entry's state, edge from entry
`1 % n`'s state), sets the changed flag, and therefore redraws - gated
purely on presence of the snapshot, not on any dirty flag. -/
theorem c6_signal_rerender_every_tick (cs : ChartState) (rs : RenderState)
    (t : Int × Int × Fin 4) (rest : List (Int × Int × Fin 4)) (d : TLDots)
    (htl : cs.traffic_lights = some (t :: rest))
    (hp : cs.is_pose_updated = false) (hq : cs.is_path_updated = false)
    (hf : rs.first_tl_iter = false) (hd : rs.tl_dots = some d) :
    tickCore cs rs = Except.ok (cs, { rs with
      update_chart := true
      tl_dots := some { d with
        face := (tl_marker t.2.2).head?
        edge := (tl_marker
          (((t :: rest).getD (1 % (rest.length + 1)) t).2.2)).head? } })
    ∧ (tick cs rs).map (fun p => (p.1.traffic_lights, p.2.draws))
        = Except.ok (some (t :: rest), rs.draws + 1) := by
  have hcore : tickCore cs rs = Except.ok (cs, { rs with
      update_chart := true
      tl_dots := some { d with
        face := (tl_marker t.2.2).head?
        edge := (tl_marker
          (((t :: rest).getD (1 % (rest.length + 1)) t).2.2)).head? } }) := by
    simp [tickCore, poseBranch_skip cs rs hp, pathBranch_skip cs rs hq,
      tlBranch_steady cs rs t rest d htl hf hd]
  refine ⟨hcore, ?_⟩
  simp [tick, hcore, tickFinish, htl, Except.map]

/-- The single-signal snapshot entry of the spec's C6 example. -/
def tl6 : Int × Int × Fin 4 :=
  (5, 5, (2 : Fin 4))

/-- The `tl_dots` artist as created on the first signal tick of the C6
example. -/
def d6 : TLDots :=
  { xdata := [5], ydata := [5], style := ['g', 'o'], face := none, edge := none }

/-- Chart state of the C6 example: track received, snapshot
`[(5, 5, state 2)]` stored. -/
def cs6 : ChartState :=
  { track0 with traffic_lights := some [tl6] }

/-- Render state of the C6 example: past the first signal tick, nothing
else pending. -/
def rs6 : RenderState :=
  { renderInit with first_tl_iter := false, update_chart := false, tl_dots := some d6 }

/-- Witness for C6 at the spec's example snapshot `[(5, 5, state 2)]`:
the steady tick restyles the marker from the stored state and redraws. -/
theorem c6_witness :
    cs6.traffic_lights = some [tl6]
    ∧ cs6.is_pose_updated = false
    ∧ cs6.is_path_updated = false
    ∧ rs6.first_tl_iter = false
    ∧ rs6.tl_dots = some d6
    ∧ (tickCore cs6 rs6 = Except.ok (cs6, { rs6 with
         update_chart := true
         tl_dots := some { d6 with
           face := (tl_marker tl6.2.2).head?
           edge := (tl_marker
             ((([tl6]).getD (1 % (([] : List (Int × Int × Fin 4)).length + 1))
               tl6).2.2)).head? } })
       ∧ (tick cs6 rs6).map (fun p => (p.1.traffic_lights, p.2.draws))
           = Except.ok (some [tl6], rs6.draws + 1)) :=
  ⟨rfl, rfl, rfl, rfl, rfl,
    c6_signal_rerender_every_tick cs6 rs6 tl6 [] d6 rfl rfl rfl rfl rfl⟩

/-- C7: the signal step is gated only on the snapshot being `not None`,
so a present-but-empty snapshot (a `TrafficLightArray` with zero lights
was delivered) runs the signal work and crashes: `next()` on an
`itertools.cycle` of the empty style list raises `StopIteration` and the
tick aborts - while an absent snapshot (`None`) correctly skips all
signal work and the tick succeeds with no artist created. -/
theorem c7_empty_snapshot_fails :
    tick (traffic_lights_cb track0 ⟨[]⟩) renderInit
      = Except.error ChartErr.stopIteration
    ∧ (tick track0 renderInit).map (fun p => p.2.tl_dots) = Except.ok none :=
  ⟨rfl, rfl⟩

/-- Two-signal snapshot with distinct states 0 (red) and 1 (yellow). -/
def twoTL : ChartState :=
  { track0 with traffic_lights := some [(0, 0, (0 : Fin 4)), (1, 1, (1 : Fin 4))] }

/-- The `tl_dots` artist created on the first tick of the two-signal
example. -/
def dTwo : TLDots :=
  { xdata := [0, 1], ydata := [0, 1], style := ['r', 'o'], face := none, edge := none }

/-- Steady render state for the two-signal example. -/
def rsTwo : RenderState :=
  { renderInit with first_tl_iter := false, update_chart := false, tl_dots := some dTwo }

/-- C9 counterexample: with the snapshot `[(0,0,state 0), (1,1,state 1)]`
a steady tick paints EVERY marker of the artist with face color `r`
(state of entry 0) and edge color `y` (state of entry 1): the marker at
`(1,1)` has state ordinal 1, whose color is `y`, yet its face is `r`,
so markers' face and edge colors are not derived from each marker's own
state ordinal. -/
theorem c9_colors_not_per_marker :
    (tick twoTL rsTwo).map (fun p => p.2.tl_dots.map fun a => (a.face, a.edge))
      = Except.ok (some (some 'r', some 'y'))
    ∧ tl_marker (1 : Fin 4) = ['y', 'o']
    ∧ ('r' : Char) ≠ 'y' :=
  ⟨rfl, rfl, by decide⟩

/-- C9 amended: on every steady-state signal tick the coordinate and
style lists are recomputed from the latest stored snapshot, but the
existing artist keeps its creation-time positions and receives exactly
two artist-wide colors: the face color derived from the FIRST snapshot
entry's state and the edge color from the SECOND entry's state (the
cycle's consecutive `next()` calls), not a per-marker color from each
marker's own state. -/
theorem c9_face_edge_from_first_two (cs : ChartState) (rs : RenderState)
    (a b : Int × Int × Fin 4) (rest : List (Int × Int × Fin 4)) (d : TLDots)
    (htl : cs.traffic_lights = some (a :: b :: rest))
    (hp : cs.is_pose_updated = false) (hq : cs.is_path_updated = false)
    (hf : rs.first_tl_iter = false) (hd : rs.tl_dots = some d) :
    tickCore cs rs = Except.ok (cs, { rs with
      update_chart := true
      tl_dots := some { d with
        face := (tl_marker a.2.2).head?
        edge := (tl_marker b.2.2).head? } }) := by
  have h1 : 1 % ((b :: rest).length + 1) = 1 := by
    apply Nat.mod_eq_of_lt
    simp
  have hgetD : ((a :: b :: rest).getD (1 % ((b :: rest).length + 1)) a) = b := by
    rw [h1]
    simp [List.getD_cons_succ, List.getD_cons_zero]
  have hsteady := tlBranch_steady cs rs a (b :: rest) d htl hf hd
  rw [hgetD] at hsteady
  simp [tickCore, poseBranch_skip cs rs hp, pathBranch_skip cs rs hq, hsteady]

/-- Witness for the amended C9 theorem at the two-signal example. -/
theorem c9_witness :
    twoTL.traffic_lights
      = some [(0, 0, (0 : Fin 4)), (1, 1, (1 : Fin 4))]
    ∧ twoTL.is_pose_updated = false
    ∧ twoTL.is_path_updated = false
    ∧ rsTwo.first_tl_iter = false
    ∧ rsTwo.tl_dots = some dTwo
    ∧ tickCore twoTL rsTwo = Except.ok (twoTL, { rsTwo with
        update_chart := true
        tl_dots := some { dTwo with
          face := (tl_marker ((0, 0, (0 : Fin 4)) : Int × Int × Fin 4).2.2).head?
          edge := (tl_marker ((1, 1, (1 : Fin 4)) : Int × Int × Fin 4).2.2).head? } }) :=
  ⟨rfl, rfl, rfl, rfl, rfl,
    c9_face_edge_from_first_two twoTL rsTwo (0, 0, (0 : Fin 4)) (1, 1, (1 : Fin 4))
      [] dTwo rfl rfl rfl rfl rfl⟩
